import Mathlib

/-!
Shallow embedding of the AI study manager's seat-policy calculator and
phase-timer state machine (source: `app.py`).

Timestamps are modelled as `Int` seconds counted from an arbitrary epoch that
falls on a midnight, so that the calendar day of `t` starts at `t - t % 86400`
and the clock time of day is `t % 86400`.  All datetimes manipulated by the
program are whole seconds (`microsecond=0` everywhere, `second=0` for seat
starts), so integer seconds are exact.  Floats that only ever hold whole
seconds are modelled as `Int`; the pause progress snapshot (a percentage) is
modelled as `Rat`.

The Streamlit session state becomes the `TimerState` structure; each UI
handler becomes a pure function `TimerState → ... → TimerState`.  `st.rerun()`
aborts the current handler, so code after a `st.rerun()` call inside a branch
is unreachable and the branches behave like an if/else-if chain.
-/

/-- Seconds elapsed since the calendar midnight of `t` (`now.time()`). -/
def secondsOfDay (t : Int) : Int := t % 86400

/-- Midnight of the calendar day of `t`. -/
def dayStart (t : Int) : Int := t - t % 86400

def SEAT_CLOSE_HOUR : Int := 23

def SEAT_OPEN_HOUR : Int := 6

def SEAT_BASE_MIN : Int := 180

def SEAT_ALERT_WINDOW_SEC : Int := 59 * 60

/-- Source `is_seat_reset_window`: clock time ≥ 23:00 or < 06:00. -/
def is_seat_reset_window (now : Int) : Bool :=
  (SEAT_CLOSE_HOUR * 3600 ≤ secondsOfDay now) || (secondsOfDay now < SEAT_OPEN_HOUR * 3600)

/-- Source `next_seat_open_dt`: today's 06:00 if before 06:00, else tomorrow's. -/
def next_seat_open_dt (now : Int) : Int :=
  let today_open := dayStart now + SEAT_OPEN_HOUR * 3600
  if secondsOfDay now < SEAT_OPEN_HOUR * 3600 then today_open
  else today_open + 86400

/-- Source `seat_close_dt_for`: 23:00 of the calendar day of `start_dt`. -/
def seat_close_dt_for (start_dt : Int) : Int :=
  dayStart start_dt + SEAT_CLOSE_HOUR * 3600

/-- Source `get_seat_expiry_dt`: base allotment of 180 min plus extension, capped at
the 23:00 closing time of the start day. -/
def get_seat_expiry_dt (seat_start_dt : Int) (extension_min : Int) : Int :=
  let base_expiry := seat_start_dt + (SEAT_BASE_MIN + extension_min) * 60
  let close_dt := seat_close_dt_for seat_start_dt
  min base_expiry close_dt

/-- Source `compute_seat_left_seconds`: `none` when the seat start is unset, when in
the reset window, or when `now` precedes the seat start; otherwise the signed
number of seconds until expiry. -/
def compute_seat_left_seconds (now : Int) (seat_start_dt : Option Int)
    (extension_min : Int) : Option Int :=
  match seat_start_dt with
  | none => none
  | some sd =>
    if is_seat_reset_window now then none
    else if now < sd then none
    else some (get_seat_expiry_dt sd extension_min - now)

/-- A row of the `study_sessions` table. -/
structure FocusSegment where
  start_time : Int
  end_time : Int
  focus_minutes : Nat
deriving Repr, DecidableEq

/-- A row of the `interruptions` table. -/
structure Interruption where
  timestamp : Int
  reason : String
  duration_lost : Int
  phase : String
deriving Repr, DecidableEq

/-- Source `_minutes_between`: `max(0, int(seconds)) // 60`. -/
def _minutes_between (t0 t1 : Int) : Nat := (t1 - t0).toNat / 60

/-- Source `log_focus_segment_if_any`: inserts a `study_sessions` row only when the
segment start is present and the elapsed whole minutes are positive; returns
the (possibly extended) table and the minutes logged. -/
def log_focus_segment_if_any (log : List FocusSegment) (seg_start : Option Int)
    (seg_end : Int) : List FocusSegment × Nat :=
  match seg_start with
  | none => (log, 0)
  | some t0 =>
    let mins := _minutes_between t0 seg_end
    if mins ≤ 0 then (log, 0)
    else (log ++ [⟨t0, seg_end, mins⟩], mins)

/-- The Streamlit session state relevant to the timer and seat policy,
including the two persisted tables written by the handlers. -/
structure TimerState where
  running : Bool
  paused : Bool
  phase : String
  phase_start_dt : Option Int
  phase_end_dt : Option Int
  pause_started_at : Option Int
  pause_snapshot_prog : Option Rat
  pause_snapshot_rem_sec : Option Rat
  seat_extension_min : Int
  show_extension_dialog : Bool
  extension_seat_left_sec : Option Int
  seat_extension_context : String
  seat_alert_shown_in_rest : Bool
  show_start_setup : Bool
  pending_start : Bool
  pending_resume : Bool
  pending_focus : Int
  pending_rest : Int
  show_pause_dialog : Bool
  show_stop_dialog : Bool
  show_seat_settings : Bool
  seat_autopopup_done : Bool
  block_next_focus_until_seat_extended : Bool
  need_main_rerun : Bool
  settings_use_seat : Bool
  settings_seat_start_dt : Option Int
  settings_focus : Int
  settings_rest : Int
  study_sessions : List FocusSegment
  interruptions : List Interruption
deriving Repr, DecidableEq

/-- The session-state defaults, with the app-launch time (the default seat
start, `datetime.now()` rounded to the minute) passed explicitly. -/
def initState (launch : Int) : TimerState where
  running := false
  paused := false
  phase := "IDLE"
  phase_start_dt := none
  phase_end_dt := none
  pause_started_at := none
  pause_snapshot_prog := none
  pause_snapshot_rem_sec := none
  seat_extension_min := 0
  show_extension_dialog := false
  extension_seat_left_sec := none
  seat_extension_context := "break"
  seat_alert_shown_in_rest := false
  show_start_setup := false
  pending_start := false
  pending_resume := false
  pending_focus := 25
  pending_rest := 5
  show_pause_dialog := false
  show_stop_dialog := false
  show_seat_settings := false
  seat_autopopup_done := false
  block_next_focus_until_seat_extended := false
  need_main_rerun := false
  settings_use_seat := false
  settings_seat_start_dt := some launch
  settings_focus := 25
  settings_rest := 5
  study_sessions := []
  interruptions := []

/-- Source `_clear_dialog_flags`. -/
def _clear_dialog_flags (s : TimerState) : TimerState :=
  { s with show_start_setup := false
           show_extension_dialog := false
           show_pause_dialog := false
           show_stop_dialog := false
           show_seat_settings := false }

/-- Source `_request_extension_popup`: records the context and the (clamped)
remaining seat seconds, then opens the extension dialog. -/
def _request_extension_popup (s : TimerState) (context : String)
    (seat_left_sec : Int) : TimerState :=
  let s := { s with seat_extension_context := context
                    extension_seat_left_sec := some (max 0 seat_left_sec) }
  let s := _clear_dialog_flags s
  { s with show_extension_dialog := true, need_main_rerun := true }

/-- Source `_start_timer_session`. -/
def _start_timer_session (s : TimerState) (now focus_min rest_min : Int) :
    TimerState :=
  { s with settings_focus := focus_min
           settings_rest := rest_min
           running := true
           paused := false
           pause_started_at := none
           pause_snapshot_prog := none
           pause_snapshot_rem_sec := none
           phase := "FOCUS"
           phase_start_dt := some now
           phase_end_dt := some (now + focus_min * 60)
           seat_alert_shown_in_rest := false
           seat_extension_context := "break"
           seat_extension_min := s.seat_extension_min
           block_next_focus_until_seat_extended := false }

/-- Source `_switch_phase`: moves to the target phase with a fresh interval; on
entering REST, raises a non-blocking extension request when seat tracking is
on, outside the reset window, and at most 59 minutes of seat time remain. -/
def _switch_phase (s : TimerState) (now : Int) (to_phase : String) : TimerState :=
  let rest_min := s.settings_rest
  let focus_min := s.settings_focus
  let s := { s with phase := to_phase, phase_start_dt := some now }
  if to_phase = "FOCUS" then
    { s with phase_end_dt := some (now + focus_min * 60) }
  else if to_phase = "REST" then
    let s := { s with phase_end_dt := some (now + rest_min * 60)
                      seat_alert_shown_in_rest := false }
    if s.settings_use_seat = true ∧ is_seat_reset_window now = false then
      match compute_seat_left_seconds now s.settings_seat_start_dt s.seat_extension_min with
      | some seat_left_sec =>
        if seat_left_sec ≤ SEAT_ALERT_WINDOW_SEC then
          _request_extension_popup { s with seat_alert_shown_in_rest := true }
            ("break_start") seat_left_sec
        else s
      | none => s
    else s
  else
    { s with phase_end_dt := none }

/-- Source `_resume_timer`: shifts the phase interval forward by the pause duration
and clears the pause fields. -/
def _resume_timer (s : TimerState) (now : Int) : TimerState :=
  let s1 :=
    match s.pause_started_at with
    | some p =>
      let paused_delta := now - p
      let sA :=
        match s.phase_start_dt with
        | some ps => { s with phase_start_dt := some (ps + paused_delta) }
        | none => s
      match sA.phase_end_dt with
      | some pe => { sA with phase_end_dt := some (pe + paused_delta) }
      | none => sA
    | none => s
  { s1 with paused := false
            pause_started_at := none
            pause_snapshot_prog := none
            pause_snapshot_rem_sec := none }

/-- The confirm button of `pause_dialog`: logs the focus segment so far (when
in FOCUS), records an interruption row, snapshots progress and remaining
seconds for display, and marks the timer paused. -/
def pause_action (s : TimerState) (now : Int) (reason : String) : TimerState :=
  let cur_phase := s.phase
  let s :=
    if cur_phase = "FOCUS" ∧ s.phase_start_dt.isSome then
      { s with study_sessions :=
          (log_focus_segment_if_any s.study_sessions s.phase_start_dt now).1 }
    else s
  let s := { s with interruptions :=
      s.interruptions ++ [Interruption.mk now ("[중단] " ++ reason) 0 cur_phase] }
  let s :=
    match s.phase_start_dt, s.phase_end_dt with
    | some ps, some pe =>
      if cur_phase = "FOCUS" ∨ cur_phase = "REST" then
        let total_sec : Rat := max 1 ((pe - ps : Int) : Rat)
        let rem_sec : Rat := max 0 ((pe - now : Int) : Rat)
        let elapsed : Rat := max 0 ((now - ps : Int) : Rat)
        let prog : Rat := min 100 (elapsed / total_sec * 100)
        { s with pause_snapshot_prog := some prog
                 pause_snapshot_rem_sec := some rem_sec }
      else
        { s with pause_snapshot_prog := some 0, pause_snapshot_rem_sec := some 0 }
    | _, _ =>
      { s with pause_snapshot_prog := some 0, pause_snapshot_rem_sec := some 0 }
  { s with paused := true, pause_started_at := some now }

/-- The confirm button of `stop_dialog`: logs the focus segment so far (when
in FOCUS), records an interruption row, and resets the timer to IDLE. -/
def stop_action (s : TimerState) (now : Int) (reason : String) : TimerState :=
  let cur_phase := s.phase
  let s :=
    if cur_phase = "FOCUS" ∧ s.phase_start_dt.isSome then
      { s with study_sessions :=
          (log_focus_segment_if_any s.study_sessions s.phase_start_dt now).1 }
    else s
  let s := { s with interruptions :=
      s.interruptions ++ [Interruption.mk now ("[종료] " ++ reason) 0 cur_phase] }
  { s with running := false
           paused := false
           pause_started_at := none
           pause_snapshot_prog := none
           pause_snapshot_rem_sec := none
           phase := "IDLE"
           phase_start_dt := none
           phase_end_dt := none
           seat_alert_shown_in_rest := false
           block_next_focus_until_seat_extended := false }

/-- Source `is_expired` as computed at the top of `extension_dialog`:
`(extension_seat_left_sec or 0) <= 0`. -/
def extension_is_expired (s : TimerState) : Bool :=
  s.extension_seat_left_sec.getD 0 ≤ 0

/-- An extension button of `extension_dialog` (only rendered while not
expired): adds the granted minutes, closes the dialog, and completes whichever
action was pending — the blocked REST→FOCUS transition, a deferred start, or a
deferred resume.  Each branch ends in `st.rerun()`, so at most one executes. -/
def extension_grant (s : TimerState) (now : Int) (minutes : Int) : TimerState :=
  if extension_is_expired s then s
  else
    let s := { s with seat_extension_min := s.seat_extension_min + minutes }
    let s := _clear_dialog_flags s
    let s := { s with extension_seat_left_sec := none }
    if s.block_next_focus_until_seat_extended = true then
      _switch_phase { s with block_next_focus_until_seat_extended := false }
        now ("FOCUS")
    else if s.pending_start = true then
      _start_timer_session { s with pending_start := false }
        now s.pending_focus s.pending_rest
    else if s.pending_resume = true then
      _resume_timer { s with pending_resume := false } now
    else s

/-- The close button of `extension_dialog`: when the seat block is set or the
stored remaining seconds are ≤ 0, forces a full stop; otherwise cancels any
pending start/resume request. -/
def extension_cancel (s : TimerState) : TimerState :=
  let expired := extension_is_expired s
  let s := _clear_dialog_flags s
  if s.block_next_focus_until_seat_extended = true ∨ expired = true then
    { s with block_next_focus_until_seat_extended := false
             running := false
             phase := "IDLE" }
  else
    { s with pending_start := false, pending_resume := false }

/-- The per-second `run_timer_fragment`: display plus the state mutations —
pinning a blocked timer, phase-expiry transitions, and the one-shot in-rest
seat alert.  Display-only paths return the state unchanged. -/
def run_timer_fragment (s : TimerState) (now : Int) : TimerState :=
  if s.running = false then s
  else if s.block_next_focus_until_seat_extended = true then
    let s1 := { s with phase := "REST", phase_end_dt := some now }
    if s1.show_extension_dialog = false then
      let s2 := { s1 with seat_extension_context := "break" }
      let s3 :=
        if s2.settings_use_seat = true then
          match compute_seat_left_seconds now s2.settings_seat_start_dt s2.seat_extension_min with
          | some seat_left_sec =>
            { s2 with extension_seat_left_sec := some (max 0 seat_left_sec) }
          | none => s2
        else s2
      { s3 with show_extension_dialog := true }
    else s1
  else if s.paused = true then s
  else
    match s.phase_start_dt, s.phase_end_dt with
    | some ps, some pe =>
      if ¬ (s.phase = "FOCUS" ∨ s.phase = "REST") then s
      else if pe ≤ now then
        if s.phase = "FOCUS" then
          let s1 := { s with study_sessions :=
              (log_focus_segment_if_any s.study_sessions (some ps) now).1 }
          let s2 := _switch_phase s1 now ("REST")
          { s2 with block_next_focus_until_seat_extended := false }
        else
          if s.settings_use_seat = true ∧ is_seat_reset_window now = false then
            match compute_seat_left_seconds now s.settings_seat_start_dt s.seat_extension_min with
            | some seat_left_sec =>
              if seat_left_sec ≤ SEAT_ALERT_WINDOW_SEC then
                { s with block_next_focus_until_seat_extended := true
                         seat_extension_context := "break"
                         extension_seat_left_sec := some seat_left_sec
                         show_extension_dialog := true
                         phase_end_dt := some now }
              else
                _switch_phase
                  { s with block_next_focus_until_seat_extended := false }
                  now ("FOCUS")
            | none =>
              _switch_phase
                { s with block_next_focus_until_seat_extended := false }
                now ("FOCUS")
          else
            _switch_phase
              { s with block_next_focus_until_seat_extended := false }
              now ("FOCUS")
      else
        if ¬ s.phase = "FOCUS" ∧ s.settings_use_seat = true then
          if is_seat_reset_window now = false then
            match compute_seat_left_seconds now s.settings_seat_start_dt s.seat_extension_min with
            | some seat_left_sec =>
              if seat_left_sec ≤ SEAT_ALERT_WINDOW_SEC ∧ s.seat_alert_shown_in_rest = false then
                { s with seat_alert_shown_in_rest := true
                         seat_extension_context := "break"
                         extension_seat_left_sec := some seat_left_sec
                         show_extension_dialog := true }
              else s
            | none => s
          else s
        else s
    | _, _ => s

/-! ## Example states used by the witnesses -/

/-- A running REST phase about to expire at 21:00 with 40 minutes of seat
time left (seat started 18:40, so expiry is 18:40 + 180 min = 21:40). -/
def exC1 : TimerState :=
  { initState 0 with running := true
                     phase := "REST"
                     phase_start_dt := some 75300
                     phase_end_dt := some 75600
                     settings_use_seat := true
                     settings_seat_start_dt := some 67200 }

/-- A paused FOCUS phase: started at 100, ends at 1600, paused at 700. -/
def exC3 : TimerState :=
  { initState 0 with running := true
                     paused := true
                     phase := "FOCUS"
                     phase_start_dt := some 100
                     phase_end_dt := some 1600
                     pause_started_at := some 700
                     pause_snapshot_prog := some 40
                     pause_snapshot_rem_sec := some 900 }

/-! ## Claims -/

/-- C2: for every seat start and every extension `ext ≥ 0` the expiry time is
at most the 23:00 closing time of the start day; a seat started at 21:30
(second 77400 of day 0) with no extension expires exactly at 23:00 (second
82800), not at start + 180 minutes. -/
theorem seat_expiry_capped (seatStart ext : Int) (hext : 0 ≤ ext) :
    get_seat_expiry_dt seatStart ext ≤ seat_close_dt_for seatStart ∧
    get_seat_expiry_dt 77400 0 = seat_close_dt_for 77400 ∧
    seat_close_dt_for 77400 = 82800 := by
  refine ⟨?_, by decide, by decide⟩
  unfold get_seat_expiry_dt
  exact min_le_right _ _

/-- Witness for C2 at seatStart = 77400 (21:30), ext = 0. -/
theorem seat_expiry_capped_witness :
    (0 : Int) ≤ 0 ∧
    (get_seat_expiry_dt 77400 0 ≤ seat_close_dt_for 77400 ∧
     get_seat_expiry_dt 77400 0 = seat_close_dt_for 77400 ∧
     seat_close_dt_for 77400 = 82800) :=
  ⟨le_refl 0, seat_expiry_capped 77400 0 (le_refl 0)⟩

/-- C4: `compute_seat_left_seconds` is `none` exactly when the seat start is
unset, or `now` is in the reset window, or `now` precedes the seat start; in
every other case it is `some (expiry - now)`, which may be negative. -/
theorem seat_left_seconds_none_cases (now s0 ext : Int) :
    compute_seat_left_seconds now none ext = none ∧
    (is_seat_reset_window now = true →
      compute_seat_left_seconds now (some s0) ext = none) ∧
    (now < s0 → compute_seat_left_seconds now (some s0) ext = none) ∧
    (is_seat_reset_window now = false → s0 ≤ now →
      compute_seat_left_seconds now (some s0) ext =
        some (get_seat_expiry_dt s0 ext - now)) := by
  refine ⟨rfl, ?_, ?_, ?_⟩
  · intro h
    simp [compute_seat_left_seconds, h]
  · intro h
    by_cases hr : is_seat_reset_window now = true
    · simp [compute_seat_left_seconds, hr]
    · simp [compute_seat_left_seconds, hr, h]
  · intro h1 h2
    simp [compute_seat_left_seconds, h1, not_lt.mpr h2]

/-- Witness for C4 at now = 75600 (21:00), seat start = 67200 (18:40),
ext = 0: remaining is `some (expiry - now)` = `some 2400`. -/
theorem seat_left_seconds_none_cases_witness :
    compute_seat_left_seconds 75600 (some 67200) 0 =
      some (get_seat_expiry_dt 67200 0 - 75600) ∧
    get_seat_expiry_dt 67200 0 - 75600 = 2400 :=
  ⟨(seat_left_seconds_none_cases 75600 67200 0).2.2.2 (by decide) (by decide),
   by decide⟩

/-- C3: resuming at `p + d` a timer paused at `p` shifts both phase bounds
forward by exactly `d`, so the remaining duration after resume equals the
remaining duration at the moment of pause. -/
theorem resume_preserves_remaining (s : TimerState) (p ps pe d : Int)
    (hd : 0 ≤ d)
    (hpause : s.pause_started_at = some p)
    (hps : s.phase_start_dt = some ps)
    (hpe : s.phase_end_dt = some pe) :
    (_resume_timer s (p + d)).phase_start_dt = some (ps + d) ∧
    (_resume_timer s (p + d)).phase_end_dt = some (pe + d) ∧
    (pe + d) - (p + d) = pe - p ∧
    (_resume_timer s (p + d)).paused = false ∧
    (_resume_timer s (p + d)).pause_started_at = none := by
  refine ⟨?_, ?_, by omega, ?_, ?_⟩ <;>
    simp [_resume_timer, hpause, hps, hpe] <;> omega

/-- Witness for C3 on `exC3` with delay d = 50. -/
theorem resume_preserves_remaining_witness :
    (_resume_timer exC3 (700 + 50)).phase_start_dt = some (100 + 50) ∧
    (_resume_timer exC3 (700 + 50)).phase_end_dt = some (1600 + 50) ∧
    (1600 + 50 : Int) - (700 + 50) = 1600 - 700 ∧
    (_resume_timer exC3 (700 + 50)).paused = false ∧
    (_resume_timer exC3 (700 + 50)).pause_started_at = none :=
  resume_preserves_remaining exC3 700 100 1600 50 (by decide)
    (by decide) (by decide) (by decide)

/-- Ticks while paused (and not seat-blocked) leave the whole session state
unchanged: helper for the idempotence claim. -/
theorem run_timer_fragment_paused_eq (s : TimerState) (now : Int)
    (hp : s.paused = true)
    (hb : s.block_next_focus_until_seat_extended = false) :
    run_timer_fragment s now = s := by
  unfold run_timer_fragment
  by_cases hr : s.running = false
  · simp [hr]
  · simp [hr, hb, hp]

/-- C9: any number of repeated ticks while the timer is paused leaves the
state — in particular `phase_start_dt`, `phase_end_dt` and the pause
snapshot — unchanged. -/
theorem paused_ticks_leave_state_unchanged (s : TimerState) (ts : List Int)
    (hp : s.paused = true)
    (hb : s.block_next_focus_until_seat_extended = false) :
    ts.foldl run_timer_fragment s = s := by
  induction ts with
  | nil => rfl
  | cons t ts ih =>
    rw [List.foldl_cons, run_timer_fragment_paused_eq s t hp hb]
    exact ih

/-- Witness for C9: three successive ticks on the paused state `exC3`. -/
theorem paused_ticks_leave_state_unchanged_witness :
    List.foldl run_timer_fragment exC3 [701, 702, 703] = exC3 :=
  paused_ticks_leave_state_unchanged exC3 [701, 702, 703] (by decide) (by decide)

/-- C8: a focus segment ending with zero elapsed whole minutes writes no
`study_sessions` row; a row is written exactly when the elapsed minutes are
positive, and the existing rows are never modified (the table only grows at
the end). -/
theorem focus_segment_zero_minutes_not_logged (log : List FocusSegment)
    (t0 t1 : Int) :
    (_minutes_between t0 t1 = 0 →
      (log_focus_segment_if_any log (some t0) t1).1 = log) ∧
    (0 < _minutes_between t0 t1 →
      (log_focus_segment_if_any log (some t0) t1).1 =
        log ++ [⟨t0, t1, _minutes_between t0 t1⟩]) ∧
    (log_focus_segment_if_any log none t1).1 = log ∧
    (∃ tail, (log_focus_segment_if_any log (some t0) t1).1 = log ++ tail) := by
  refine ⟨?_, ?_, rfl, ?_⟩
  · intro h
    simp [log_focus_segment_if_any, h]
  · intro h
    simp [log_focus_segment_if_any, Nat.pos_iff_ne_zero.mp h]
  · by_cases h : _minutes_between t0 t1 = 0
    · exact ⟨[], by simp [log_focus_segment_if_any, h]⟩
    · exact ⟨[⟨t0, t1, _minutes_between t0 t1⟩],
        by simp [log_focus_segment_if_any, h]⟩

/-- Witness for C8: a 30-second segment logs nothing, a 60-minute segment
logs one row. -/
theorem focus_segment_zero_minutes_not_logged_witness :
    (log_focus_segment_if_any [] (some 72000) 72030).1 = [] ∧
    (log_focus_segment_if_any [] (some 72000) 75600).1 =
      [] ++ [⟨72000, 75600, _minutes_between 72000 75600⟩] :=
  ⟨(focus_segment_zero_minutes_not_logged [] 72000 72030).1 (by decide),
   (focus_segment_zero_minutes_not_logged [] 72000 75600).2.1 (by decide)⟩

/-- C1: when a running REST phase has expired and seat tracking is on, the
current time is outside the reset window and the remaining seat seconds are
defined and at most 59 minutes, the tick does not advance to FOCUS: the block
flag is set, the phase stays REST, the phase end is pinned to `now` (so the
displayed remaining time is 00:00), and an extension request with context
"break" is raised. -/
theorem rest_expiry_blocks_transition (s : TimerState) (now ps pe seat_left : Int)
    (hrun : s.running = true)
    (hblock : s.block_next_focus_until_seat_extended = false)
    (hpause : s.paused = false)
    (hphase : s.phase = "REST")
    (hps : s.phase_start_dt = some ps)
    (hpe : s.phase_end_dt = some pe)
    (hexp : pe ≤ now)
    (huse : s.settings_use_seat = true)
    (hwin : is_seat_reset_window now = false)
    (hleft : compute_seat_left_seconds now s.settings_seat_start_dt
      s.seat_extension_min = some seat_left)
    (hthr : seat_left ≤ SEAT_ALERT_WINDOW_SEC) :
    (run_timer_fragment s now).phase = "REST" ∧
    (run_timer_fragment s now).block_next_focus_until_seat_extended = true ∧
    (run_timer_fragment s now).phase_end_dt = some now ∧
    (run_timer_fragment s now).show_extension_dialog = true ∧
    (run_timer_fragment s now).seat_extension_context = "break" ∧
    (run_timer_fragment s now).extension_seat_left_sec = some seat_left := by
  unfold run_timer_fragment
  simp [hrun, hblock, hpause, hphase, hps, hpe, hexp, huse, hwin, hleft, hthr]

/-- Witness for C1 on `exC1`: REST expires at 21:00 with 40 minutes (2400 s)
of seat time remaining. -/
theorem rest_expiry_blocks_transition_witness :
    (run_timer_fragment exC1 75600).phase = "REST" ∧
    (run_timer_fragment exC1 75600).block_next_focus_until_seat_extended = true ∧
    (run_timer_fragment exC1 75600).phase_end_dt = some 75600 ∧
    (run_timer_fragment exC1 75600).show_extension_dialog = true ∧
    (run_timer_fragment exC1 75600).seat_extension_context = "break" ∧
    (run_timer_fragment exC1 75600).extension_seat_left_sec = some 2400 :=
  rest_expiry_blocks_transition exC1 75600 75300 75600 2400
    (by decide) (by decide) (by decide) (by decide) (by decide) (by decide)
    (by decide) (by decide) (by decide) (by decide) (by decide)

/-- Switching to REST always lands in REST with a fresh rest interval and
touches neither the persisted focus log nor the block flag. -/
theorem switch_phase_rest_core (s : TimerState) (now : Int) :
    (_switch_phase s now ("REST")).phase = "REST" ∧
    (_switch_phase s now ("REST")).phase_start_dt = some now ∧
    (_switch_phase s now ("REST")).phase_end_dt =
      some (now + s.settings_rest * 60) ∧
    (_switch_phase s now ("REST")).study_sessions = s.study_sessions ∧
    (_switch_phase s now ("REST")).block_next_focus_until_seat_extended =
      s.block_next_focus_until_seat_extended := by
  by_cases hc : s.settings_use_seat = true ∧ is_seat_reset_window now = false
  · rcases hcl : compute_seat_left_seconds now s.settings_seat_start_dt
      s.seat_extension_min with _ | l
    · simp [_switch_phase, _request_extension_popup, _clear_dialog_flags, hc, hcl]
    · by_cases hthr : l ≤ SEAT_ALERT_WINDOW_SEC
      · simp [_switch_phase, _request_extension_popup, _clear_dialog_flags,
          hc, hcl, hthr]
      · simp [_switch_phase, _request_extension_popup, _clear_dialog_flags,
          hc, hcl, hthr]
  · simp [_switch_phase, _request_extension_popup, _clear_dialog_flags, hc]

/-- Switching to REST raises the "break_start" extension request when seat
tracking is on, outside the reset window, and at most 59 minutes remain. -/
theorem switch_phase_rest_popup (s : TimerState) (now l : Int)
    (hu : s.settings_use_seat = true)
    (hw : is_seat_reset_window now = false)
    (hcl : compute_seat_left_seconds now s.settings_seat_start_dt
      s.seat_extension_min = some l)
    (hthr : l ≤ SEAT_ALERT_WINDOW_SEC) :
    (_switch_phase s now ("REST")).show_extension_dialog = true ∧
    (_switch_phase s now ("REST")).seat_extension_context = "break_start" := by
  unfold _switch_phase _request_extension_popup _clear_dialog_flags
  simp [hu, hw, hcl, hthr]

/-- C7: when a running FOCUS phase has expired, the elapsed focus segment
[start, now) is logged and the phase switches to REST (start = now, end =
now + rest minutes) without blocking; when seat tracking is on, outside the
reset window, and at most 59 minutes of seat time remain, an extension
request with context "break_start" is raised on top of the switch. -/
theorem focus_expiry_switches_to_rest (s : TimerState) (now ps pe : Int)
    (hrun : s.running = true)
    (hblock : s.block_next_focus_until_seat_extended = false)
    (hpause : s.paused = false)
    (hphase : s.phase = "FOCUS")
    (hps : s.phase_start_dt = some ps)
    (hpe : s.phase_end_dt = some pe)
    (hexp : pe ≤ now) :
    (run_timer_fragment s now).phase = "REST" ∧
    (run_timer_fragment s now).phase_start_dt = some now ∧
    (run_timer_fragment s now).phase_end_dt =
      some (now + s.settings_rest * 60) ∧
    (run_timer_fragment s now).block_next_focus_until_seat_extended = false ∧
    (run_timer_fragment s now).study_sessions =
      (log_focus_segment_if_any s.study_sessions (some ps) now).1 ∧
    (∀ l : Int, s.settings_use_seat = true → is_seat_reset_window now = false →
      compute_seat_left_seconds now s.settings_seat_start_dt
        s.seat_extension_min = some l →
      l ≤ SEAT_ALERT_WINDOW_SEC →
      (run_timer_fragment s now).show_extension_dialog = true ∧
      (run_timer_fragment s now).seat_extension_context = "break_start") := by
  have hfrag : run_timer_fragment s now =
      { _switch_phase
          { s with study_sessions :=
              (log_focus_segment_if_any s.study_sessions (some ps) now).1 }
          now ("REST")
        with block_next_focus_until_seat_extended := false } := by
    unfold run_timer_fragment
    simp [hrun, hblock, hpause, hphase, hps, hpe, hexp]
  have hcore := switch_phase_rest_core
    { s with study_sessions :=
        (log_focus_segment_if_any s.study_sessions (some ps) now).1 } now
  rw [hfrag]
  refine ⟨?_, ?_, ?_, rfl, ?_, ?_⟩
  · simpa using hcore.1
  · simpa using hcore.2.1
  · simpa using hcore.2.2.1
  · simpa using hcore.2.2.2.1
  · intro l hu hw hcl hthr
    have hpop := switch_phase_rest_popup
      { s with study_sessions :=
          (log_focus_segment_if_any s.study_sessions (some ps) now).1 }
      now l hu hw hcl hthr
    exact ⟨hpop.1, hpop.2⟩

/-- A running FOCUS phase from 20:00 to 21:00, seat started 18:40, rest 5. -/
def exC7 : TimerState :=
  { initState 0 with running := true
                     phase := "FOCUS"
                     phase_start_dt := some 72000
                     phase_end_dt := some 75600
                     settings_use_seat := true
                     settings_seat_start_dt := some 67200 }

/-- Witness for C7 on `exC7` at 21:00: the 60-minute segment is logged, REST
runs 21:00–21:05, and the "break_start" request fires (40 min of seat left). -/
theorem focus_expiry_switches_to_rest_witness :
    (run_timer_fragment exC7 75600).phase = "REST" ∧
    (run_timer_fragment exC7 75600).phase_start_dt = some 75600 ∧
    (run_timer_fragment exC7 75600).phase_end_dt =
      some (75600 + exC7.settings_rest * 60) ∧
    (run_timer_fragment exC7 75600).block_next_focus_until_seat_extended = false ∧
    (run_timer_fragment exC7 75600).study_sessions =
      (log_focus_segment_if_any exC7.study_sessions (some 72000) 75600).1 ∧
    (run_timer_fragment exC7 75600).show_extension_dialog = true ∧
    (run_timer_fragment exC7 75600).seat_extension_context = "break_start" := by
  have h := focus_expiry_switches_to_rest exC7 75600 72000 75600
    (by decide) (by decide) (by decide) (by decide) (by decide) (by decide)
    (by decide)
  have hpop := h.2.2.2.2.2 2400 (by decide) (by decide) (by decide) (by decide)
  exact ⟨h.1, h.2.1, h.2.2.1, h.2.2.2.1, h.2.2.2.2.1, hpop.1, hpop.2⟩

/-- Source `_resume_timer` always clears the paused flag. -/
theorem resume_timer_paused (s : TimerState) (now : Int) :
    (_resume_timer s now).paused = false := by
  simp only [_resume_timer]

/-- Source `_resume_timer` always clears the pause start. -/
theorem resume_timer_pause_started_at (s : TimerState) (now : Int) :
    (_resume_timer s now).pause_started_at = none := by
  simp only [_resume_timer]

/-- Source `_resume_timer` does not touch the pending-resume flag. -/
theorem resume_timer_pending_resume (s : TimerState) (now : Int) :
    (_resume_timer s now).pending_resume = s.pending_resume := by
  unfold _resume_timer
  rcases h : s.pause_started_at with _ | p <;>
    rcases h1 : s.phase_start_dt with _ | ps <;>
      rcases h2 : s.phase_end_dt with _ | pe <;>
        simp [h, h1, h2]

/-- Source `_resume_timer` does not touch the accumulated extension minutes. -/
theorem resume_timer_seat_extension_min (s : TimerState) (now : Int) :
    (_resume_timer s now).seat_extension_min = s.seat_extension_min := by
  unfold _resume_timer
  rcases h : s.pause_started_at with _ | p <;>
    rcases h1 : s.phase_start_dt with _ | ps <;>
      rcases h2 : s.phase_end_dt with _ | pe <;>
        simp [h, h1, h2]

/-- C5: granting an extension of `m` minutes (possible only while the stored
remaining seat seconds are positive) adds `m` to the accumulated extension
and immediately completes the pending action: a blocked REST→FOCUS
transition proceeds into a fresh FOCUS interval with the block flag cleared,
a deferred start begins the session, and a deferred resume unpauses. -/
theorem extension_grant_completes_pending (s : TimerState) (now m : Int)
    (hexp : extension_is_expired s = false) :
    (extension_grant s now m).seat_extension_min = s.seat_extension_min + m ∧
    (s.block_next_focus_until_seat_extended = true →
      (extension_grant s now m).block_next_focus_until_seat_extended = false ∧
      (extension_grant s now m).phase = "FOCUS" ∧
      (extension_grant s now m).phase_start_dt = some now ∧
      (extension_grant s now m).phase_end_dt =
        some (now + s.settings_focus * 60)) ∧
    (s.block_next_focus_until_seat_extended = false → s.pending_start = true →
      (extension_grant s now m).pending_start = false ∧
      (extension_grant s now m).running = true ∧
      (extension_grant s now m).phase = "FOCUS" ∧
      (extension_grant s now m).phase_start_dt = some now ∧
      (extension_grant s now m).phase_end_dt =
        some (now + s.pending_focus * 60)) ∧
    (s.block_next_focus_until_seat_extended = false → s.pending_start = false →
      s.pending_resume = true →
      (extension_grant s now m).pending_resume = false ∧
      (extension_grant s now m).paused = false ∧
      (extension_grant s now m).pause_started_at = none) := by
  unfold extension_grant
  by_cases hb : s.block_next_focus_until_seat_extended = true
  · simp [hexp, hb, _clear_dialog_flags, _switch_phase]
  · by_cases hps : s.pending_start = true
    · simp [hexp, hb, hps, _clear_dialog_flags, _start_timer_session]
    · by_cases hpr : s.pending_resume = true
      · simp [hexp, hb, hps, hpr, _clear_dialog_flags, resume_timer_paused,
          resume_timer_pause_started_at, resume_timer_pending_resume,
          resume_timer_seat_extension_min]
      · simp [hexp, hb, hps, hpr, _clear_dialog_flags]

/-- A seat-blocked REST state (block raised at 21:00 with 40 min left) whose
extension dialog is open. -/
def exC5 : TimerState :=
  { initState 0 with running := true
                     phase := "REST"
                     phase_start_dt := some 75300
                     phase_end_dt := some 75600
                     block_next_focus_until_seat_extended := true
                     show_extension_dialog := true
                     extension_seat_left_sec := some 2400
                     settings_use_seat := true
                     settings_seat_start_dt := some 67200 }

/-- Witness for C5 on `exC5`: granting 60 minutes clears the block and starts
a fresh FOCUS interval immediately. -/
theorem extension_grant_completes_pending_witness :
    (extension_grant exC5 75660 60).seat_extension_min =
      exC5.seat_extension_min + 60 ∧
    (extension_grant exC5 75660 60).block_next_focus_until_seat_extended = false ∧
    (extension_grant exC5 75660 60).phase = "FOCUS" ∧
    (extension_grant exC5 75660 60).phase_start_dt = some 75660 ∧
    (extension_grant exC5 75660 60).phase_end_dt =
      some (75660 + exC5.settings_focus * 60) := by
  have h := extension_grant_completes_pending exC5 75660 60 (by decide)
  have hb := h.2.1 (by decide)
  exact ⟨h.1, hb.1, hb.2.1, hb.2.2.1, hb.2.2.2⟩

/-- A paused FOCUS timer whose resume click found the seat already expired:
the pending-resume flag is set and the stored remaining seconds are negative. -/
def exC6 : TimerState :=
  { initState 0 with running := true
                     paused := true
                     phase := "FOCUS"
                     phase_start_dt := some 70000
                     phase_end_dt := some 71500
                     pause_started_at := some 70500
                     pending_resume := true
                     show_extension_dialog := true
                     extension_seat_left_sec := some (-10)
                     seat_extension_context := "resume"
                     settings_use_seat := true
                     settings_seat_start_dt := some 60000 }

/-- Counterexample to C6 as stated: on `exC6` the request arose from a
pending resume (block flag unset), yet closing the dialog does not merely
clear the pending flag with no other change — because the stored seat-left is
≤ 0, the code forces a full stop (running = false, phase = IDLE) and leaves
`pending_resume` set. -/
theorem extension_cancel_claim_counterexample :
    exC6.pending_resume = true ∧
    exC6.block_next_focus_until_seat_extended = false ∧
    exC6.running = true ∧
    (extension_cancel exC6).running = false ∧
    (extension_cancel exC6).phase = "IDLE" ∧
    (extension_cancel exC6).pending_resume = true := by decide

/-- C6 (amended): closing the extension dialog without granting time forces a
full stop (running = false, phase = IDLE, block cleared) whenever the seat
block is set or the stored remaining seat seconds (default 0) are ≤ 0;
otherwise it clears the pending start/resume flags and changes no other timer
state.  The dichotomy is on block-or-expired, not on the request context
alone. -/
theorem extension_cancel_dichotomy (s : TimerState) :
    ((s.block_next_focus_until_seat_extended = true ∨
        extension_is_expired s = true) →
      (extension_cancel s).running = false ∧
      (extension_cancel s).phase = "IDLE" ∧
      (extension_cancel s).block_next_focus_until_seat_extended = false) ∧
    (s.block_next_focus_until_seat_extended = false →
      extension_is_expired s = false →
      (extension_cancel s).pending_start = false ∧
      (extension_cancel s).pending_resume = false ∧
      (extension_cancel s).running = s.running ∧
      (extension_cancel s).paused = s.paused ∧
      (extension_cancel s).phase = s.phase ∧
      (extension_cancel s).phase_start_dt = s.phase_start_dt ∧
      (extension_cancel s).phase_end_dt = s.phase_end_dt ∧
      (extension_cancel s).pause_started_at = s.pause_started_at ∧
      (extension_cancel s).seat_extension_min = s.seat_extension_min ∧
      (extension_cancel s).study_sessions = s.study_sessions) := by
  unfold extension_cancel
  by_cases hb : s.block_next_focus_until_seat_extended = true <;>
    by_cases he : extension_is_expired s = true <;>
      simp [hb, he, _clear_dialog_flags]

/-- A start request deferred on a seat extension with 20 minutes left. -/
def exC6b : TimerState :=
  { initState 0 with pending_start := true
                     show_extension_dialog := true
                     extension_seat_left_sec := some 1200
                     seat_extension_context := "prestart"
                     settings_use_seat := true
                     settings_seat_start_dt := some 60000 }

/-- Witness for the amended C6 on `exC6b`: cancelling a (non-expired) pending
start clears the pending flags and leaves the timer untouched. -/
theorem extension_cancel_dichotomy_witness :
    (extension_cancel exC6b).pending_start = false ∧
    (extension_cancel exC6b).pending_resume = false ∧
    (extension_cancel exC6b).running = exC6b.running ∧
    (extension_cancel exC6b).paused = exC6b.paused ∧
    (extension_cancel exC6b).phase = exC6b.phase ∧
    (extension_cancel exC6b).phase_start_dt = exC6b.phase_start_dt ∧
    (extension_cancel exC6b).phase_end_dt = exC6b.phase_end_dt ∧
    (extension_cancel exC6b).pause_started_at = exC6b.pause_started_at ∧
    (extension_cancel exC6b).seat_extension_min = exC6b.seat_extension_min ∧
    (extension_cancel exC6b).study_sessions = exC6b.study_sessions :=
  (extension_cancel_dichotomy exC6b).2 (by decide) (by decide)

/-- Source `_resume_timer` shifts both phase bounds forward by `now - p`. -/
theorem resume_timer_bounds (s : TimerState) (p ps pe now : Int)
    (hpa : s.pause_started_at = some p)
    (hs : s.phase_start_dt = some ps)
    (he : s.phase_end_dt = some pe) :
    (_resume_timer s now).phase_start_dt = some (ps + (now - p)) ∧
    (_resume_timer s now).phase_end_dt = some (pe + (now - p)) := by
  unfold _resume_timer
  simp [hpa, hs, he]

/-- Source `_resume_timer` touches neither the run/phase/block state nor the
persisted focus log. -/
theorem resume_timer_frame (s : TimerState) (now : Int) :
    (_resume_timer s now).running = s.running ∧
    (_resume_timer s now).phase = s.phase ∧
    (_resume_timer s now).block_next_focus_until_seat_extended =
      s.block_next_focus_until_seat_extended ∧
    (_resume_timer s now).study_sessions = s.study_sessions := by
  unfold _resume_timer
  rcases h : s.pause_started_at with _ | q <;>
    rcases h1 : s.phase_start_dt with _ | ps <;>
      rcases h2 : s.phase_end_dt with _ | pe <;>
        simp [h, h1, h2]

/-- Confirming the pause dialog during FOCUS logs the segment so far and
marks the timer paused, leaving phase, bounds and run state untouched. -/
theorem pause_action_focus (s : TimerState) (now : Int) (reason : String)
    (a : Int)
    (hphase : s.phase = "FOCUS")
    (hps : s.phase_start_dt = some a) :
    (pause_action s now reason).study_sessions =
      (log_focus_segment_if_any s.study_sessions (some a) now).1 ∧
    (pause_action s now reason).running = s.running ∧
    (pause_action s now reason).phase = "FOCUS" ∧
    (pause_action s now reason).phase_start_dt = some a ∧
    (pause_action s now reason).phase_end_dt = s.phase_end_dt ∧
    (pause_action s now reason).paused = true ∧
    (pause_action s now reason).pause_started_at = some now ∧
    (pause_action s now reason).block_next_focus_until_seat_extended =
      s.block_next_focus_until_seat_extended := by
  unfold pause_action
  rcases h2 : s.phase_end_dt with _ | pe <;>
    simp [hphase, hps, h2]

/-- A FOCUS-expiry tick appends exactly the logger's output to the persisted
focus log (the switch to REST never touches it). -/
theorem fragment_focus_expiry_sessions (s : TimerState) (now ps pe : Int)
    (hrun : s.running = true)
    (hblock : s.block_next_focus_until_seat_extended = false)
    (hpause : s.paused = false)
    (hphase : s.phase = "FOCUS")
    (hps : s.phase_start_dt = some ps)
    (hpe : s.phase_end_dt = some pe)
    (hexp : pe ≤ now) :
    (run_timer_fragment s now).study_sessions =
      (log_focus_segment_if_any s.study_sessions (some ps) now).1 := by
  have hfrag : run_timer_fragment s now =
      { _switch_phase
          { s with study_sessions :=
              (log_focus_segment_if_any s.study_sessions (some ps) now).1 }
          now ("REST")
        with block_next_focus_until_seat_extended := false } := by
    unfold run_timer_fragment
    simp [hrun, hblock, hpause, hphase, hps, hpe, hexp]
  rw [hfrag]
  simpa using (switch_phase_rest_core
    { s with study_sessions :=
        (log_focus_segment_if_any s.study_sessions (some ps) now).1 } now).2.2.2.1

/-- The logger appends exactly one row when the minutes are positive. -/
theorem log_focus_pos (log : List FocusSegment) (t0 t1 : Int)
    (h : 0 < _minutes_between t0 t1) :
    (log_focus_segment_if_any log (some t0) t1).1 =
      log ++ [⟨t0, t1, _minutes_between t0 t1⟩] := by
  simp [log_focus_segment_if_any, Nat.pos_iff_ne_zero.mp h]

/-- Source `_minutes_between` is shift-invariant. -/
theorem minutes_between_shift (t0 t1 c : Int) :
    _minutes_between (t0 + c) (t1 + c) = _minutes_between t0 t1 := by
  unfold _minutes_between
  have h : t1 + c - (t0 + c) = t1 - t0 := by ring
  rw [h]

/-- C10: a FOCUS phase [a, e) paused at `p` and resumed at `r` logs the
segment [a, p) at pause, yet resume shifts the phase start only forward to
`a + (r - p) ≤ p`; when the shifted phase expires at `e + (r - p)` a second
segment starting at the shifted start is logged whose minutes equal those of
the whole original interval [a, e).  The persisted total therefore counts the
pre-pause interval twice, exceeding the actual focused wall-clock minutes by
the minutes of [a, p). -/
theorem pause_resume_double_logging (s0 : TimerState)
    (a e p r : Int) (reason : String)
    (hrun : s0.running = true)
    (hblock : s0.block_next_focus_until_seat_extended = false)
    (hpause : s0.paused = false)
    (hphase : s0.phase = "FOCUS")
    (hps : s0.phase_start_dt = some a)
    (hpe : s0.phase_end_dt = some e)
    (hap : a < p)
    (hpr : p < r)
    (hdelay : r - p ≤ p - a)
    (hm1 : 0 < _minutes_between a p)
    (hm2 : 0 < _minutes_between a e) :
    (run_timer_fragment (_resume_timer (pause_action s0 p reason) r)
        (e + (r - p))).study_sessions =
      s0.study_sessions ++
        [⟨a, p, _minutes_between a p⟩,
         ⟨a + (r - p), e + (r - p),
           _minutes_between (a + (r - p)) (e + (r - p))⟩] ∧
    a + (r - p) ≤ p ∧
    _minutes_between (a + (r - p)) (e + (r - p)) = _minutes_between a e ∧
    _minutes_between a p + _minutes_between (a + (r - p)) (e + (r - p)) =
      _minutes_between a e + _minutes_between a p := by
  obtain ⟨hP1, hP2, hP3, hP4, hP5, hP6, hP7, hP8⟩ :=
    pause_action_focus s0 p reason a hphase hps
  obtain ⟨hR1, hR2⟩ :=
    resume_timer_bounds (pause_action s0 p reason) p a e r hP7 hP4
      (hP5.trans hpe)
  obtain ⟨hF1, hF2, hF3, hF4⟩ := resume_timer_frame (pause_action s0 p reason) r
  have hm2' : 0 < _minutes_between (a + (r - p)) (e + (r - p)) := by
    rw [minutes_between_shift]
    exact hm2
  have hsess := fragment_focus_expiry_sessions
    (_resume_timer (pause_action s0 p reason) r)
    (e + (r - p)) (a + (r - p)) (e + (r - p))
    (hF1.trans (hP2.trans hrun))
    (hF3.trans (hP8.trans hblock))
    (resume_timer_paused _ _)
    (hF2.trans hP3)
    hR1 hR2 (le_refl _)
  refine ⟨?_, by omega, minutes_between_shift a e (r - p), ?_⟩
  · rw [hsess, hF4, hP1, log_focus_pos _ _ _ hm1, log_focus_pos _ _ _ hm2']
    simp
  · rw [minutes_between_shift a e (r - p)]
    omega

/-- A running FOCUS phase [0, 1500) with seat tracking off. -/
def exC10 : TimerState :=
  { initState 0 with running := true
                     phase := "FOCUS"
                     phase_start_dt := some 0
                     phase_end_dt := some 1500 }

/-- Witness for C10 on `exC10`: pause at 600 s, resume at 900 s, expiry at
1800 s; the log gains [0,600) (10 min) and [300,1800) (25 min) — 35 minutes
persisted for 25 minutes actually focused. -/
theorem pause_resume_double_logging_witness :
    (run_timer_fragment (_resume_timer (pause_action exC10 600 ("기타")) 900)
        (1500 + (900 - 600))).study_sessions =
      exC10.study_sessions ++
        [⟨0, 600, _minutes_between 0 600⟩,
         ⟨0 + (900 - 600), 1500 + (900 - 600),
           _minutes_between (0 + (900 - 600)) (1500 + (900 - 600))⟩] ∧
    (0 : Int) + (900 - 600) ≤ 600 ∧
    _minutes_between (0 + (900 - 600)) (1500 + (900 - 600)) =
      _minutes_between 0 1500 ∧
    _minutes_between 0 600 + _minutes_between (0 + (900 - 600)) (1500 + (900 - 600)) =
      _minutes_between 0 1500 + _minutes_between 0 600 :=
  pause_resume_double_logging exC10 0 1500 600 900 ("기타")
    (by decide) (by decide) (by decide) (by decide) (by decide) (by decide)
    (by decide) (by decide) (by decide) (by decide) (by decide)
